import Mathlib

/-!
Shallow embedding of the PDF-export layout engine in `src/index.tsx`
(`handlePdfExport`, lines 110-183, together with its inner helpers
`addFooter` (121-127) and `renderMarkdown` (129-149)).

Modelling decisions, each traceable to the source:

* A jsPDF document is a 1-based array of pages, each page an ordered list
  of draw operations.  `new jsPDF(...)` (line 113) starts with one empty
  page; `doc.addPage()` appends an empty page and makes it current; during
  the content pass every `doc.text` call lands on the current (= last)
  page; the footer loop (177-180) uses `doc.setPage(i)` to write onto
  page `i`.
* The external collaborators are parameters: `wrap` stands for
  `doc.splitTextToSize` at the font size in effect (set via
  `doc.setFontSize` right before each call: 24 for the title, 12 for a
  question, 11 for an answer), and `toPlainText` stands for
  `marked.parse` followed by the `innerText` extraction (lines 130-132,
  138).  `pageHeight` stands for `doc.internal.pageSize.getHeight()` and
  is a parameter of the run.
* The vertical cursor `yPos` and all heights are integers: every height
  and advance the source computes is an integer number of points
  (`splitText.length * 12`, `qLines.length * 14 + 15`,
  `titleLines.length * 26 + 40`), added to `yPos` exactly as written, so
  every cursor value is an integer offset from the initial integer
  positions 50 resp. 80.  jsPDF reports the A4 height as 841.89; since
  both sides of the only comparison, the strict
  `yPos + height > pageHeight - pageMargin`, differ by the integer
  `yPos + height`, the integer threshold `pageHeight = 841` reproduces
  that comparison exactly (`y > 791.89` iff `y ≥ 792` iff `y > 791` for
  integer `y`), and the claims hold for every integer `pageHeight`.
* `pageMargin` is the literal constant 50 (line 115).
* `doc.save(...)` (line 182) is modelled by returning the derived
  filename next to the finished document; the early `return` for an
  empty transcript (line 111) is modelled by `none`.
-/

namespace ExamPrep

/-- One question/answer pair as stored in the `qaPairs` React state:
`q` is the raw question string, `a` the raw markdown answer. -/
structure QAPair where
  q : String
  a : String
deriving DecidableEq, Repr

/-- One draw operation recorded on a page.  `title`, `question` and
`answer` carry the wrapped lines and the vertical position `y` the text
starts at (the `doc.text` calls of lines 156, 169 and 147); `footer`
records one execution of `addFooter` (lines 121-127): the chat title
drawn bottom-left and the page number `n` drawn bottom-right, both at
the fixed height `pageHeight - 20`. -/
inductive DrawOp where
  | title (lines : List String) (y : ℤ)
  | question (lines : List String) (y : ℤ)
  | answer (lines : List String) (y : ℤ)
  | footer (t : String) (n : Nat)
deriving DecidableEq, Repr

/-- A page is the ordered list of draw operations placed on it. -/
abbrev Page := List DrawOp

/-- The jsPDF document: its 1-based array of pages.  The current page of
the content pass is always the last one. -/
structure Doc where
  pages : List Page
deriving DecidableEq, Repr

/-- Append a draw operation to the page at 0-based index `n`
(out-of-range indices leave the list unchanged). -/
def appendAt : List Page → Nat → DrawOp → List Page
  | [], _, _ => []
  | p :: ps, 0, op => (p ++ [op]) :: ps
  | p :: ps, n + 1, op => p :: appendAt ps n op

/-- `doc.internal.getNumberOfPages()`. -/
def Doc.numPages (d : Doc) : Nat := d.pages.length

/-- Draw onto the 1-based page `i` (the footer loop's
`doc.setPage(i); addFooter(i)`). -/
def Doc.drawOn (d : Doc) (i : Nat) (op : DrawOp) : Doc :=
  ⟨appendAt d.pages (i - 1) op⟩

/-- Draw onto the current page.  jsPDF's current page during the content
pass is the last page, i.e. page number `numPages`. -/
def Doc.drawCurrent (d : Doc) (op : DrawOp) : Doc :=
  d.drawOn d.numPages op

/-- `doc.addPage()`: append a fresh empty page, which becomes current. -/
def Doc.addPage (d : Doc) : Doc := ⟨d.pages ++ [[]]⟩

/-- A freshly constructed jsPDF document has exactly one empty page. -/
def Doc.new : Doc := ⟨[[]]⟩

/-- All draw operations of the document, in page order. -/
def Doc.allOps (d : Doc) : List DrawOp := d.pages.flatten

/-- The draw operations on 1-based page `i` (empty if out of range). -/
def Doc.opsOn (d : Doc) (i : Nat) : Page := d.pages.getD (i - 1) []

/-- Whether a draw operation is a footer stamp. -/
def isFooterOp : DrawOp → Bool
  | .footer _ _ => true
  | _ => false

/-- Whether a draw operation is a question block. -/
def isQuestionOp : DrawOp → Bool
  | .question _ _ => true
  | _ => false

/-- Whether a draw operation is an answer block. -/
def isAnswerOp : DrawOp → Bool
  | .answer _ _ => true
  | _ => false

/-- Number of footer stamps on 1-based page `i`. -/
def footerCount (d : Doc) (i : Nat) : Nat := (d.opsOn i).countP isFooterOp

/-- Number of question blocks in the whole document. -/
def questionOpCount (d : Doc) : Nat := d.allOps.countP isQuestionOp

/-- Number of answer blocks in the whole document. -/
def answerOpCount (d : Doc) : Nat := d.allOps.countP isAnswerOp

/-- The external collaborators and page geometry of one export run:
`wrap fs s` is `doc.splitTextToSize(s, contentWidth)` with font size
`fs` in effect, `toPlainText` is `marked.parse` plus `innerText`
extraction, `pageHeight` is `doc.internal.pageSize.getHeight()`. -/
structure Config where
  wrap : Nat → String → List String
  toPlainText : String → String
  pageHeight : ℤ

/-- The page-break pattern the source writes out twice, at lines 141-145
(inside `renderMarkdown`) and 164-168 (for a question block): if the
cursor plus the pending block height exceeds `pageHeight - pageMargin`
strictly, stamp a footer with the current page number onto the current
page, add a page, and reset the cursor to the top margin 50; `t` is the
chat title the footer draws. -/
def pageBreakIfNeeded (H : ℤ) (t : String) (h : ℤ) (s : Doc × ℤ) : Doc × ℤ :=
  if s.2 + h > H - 50 then
    ((s.1.drawCurrent (DrawOp.footer t s.1.numPages)).addPage, (50 : ℤ))
  else s

/-- Lines 129-149: wrap the markdown answer into plain-text lines at
font size 11, measure `splitText.length * 12`, break the page if needed,
draw the block at the (possibly reset) cursor and advance by the height
plus 10. -/
def renderMarkdown (cfg : Config) (t : String) (text : String) (s : Doc × ℤ) :
    Doc × ℤ :=
  let lines := cfg.wrap 11 (cfg.toPlainText text)
  let h : ℤ := lines.length * 12
  let s1 := pageBreakIfNeeded cfg.pageHeight t h s
  (s1.1.drawCurrent (DrawOp.answer lines s1.2), s1.2 + h + 10)

/-- The body of the `qaPairs.forEach` loop, lines 159-174: wrap the
question at font size 12 (height 14 per line), break the page if
needed, draw the question and advance by `qLines.length * 14 + 15`,
render the answer via `renderMarkdown`, and add the inter-pair spacing
25. -/
def renderPair (cfg : Config) (t : String) (s : Doc × ℤ) (qa : QAPair) :
    Doc × ℤ :=
  let qLines := cfg.wrap 12 qa.q
  let qH : ℤ := qLines.length * 14
  let s1 := pageBreakIfNeeded cfg.pageHeight t qH s
  let s2 : Doc × ℤ :=
    (s1.1.drawCurrent (DrawOp.question qLines s1.2), s1.2 + qH + 15)
  let s3 := renderMarkdown cfg t qa.a s2
  (s3.1, s3.2 + 25)

/-- Lines 151-157: on the fresh document set the cursor to 80, wrap the
title at font size 24, draw it centered at 80 with no page-break check,
and advance by `titleLines.length * 26 + 40`. -/
def titleStep (cfg : Config) (t : String) : Doc × ℤ :=
  let titleLines := cfg.wrap 24 t
  (Doc.new.drawCurrent (DrawOp.title titleLines 80),
   (80 : ℤ) + titleLines.length * 26 + 40)

/-- The whole content pass: title block, then the `forEach` over the
question/answer pairs. -/
def contentPass (cfg : Config) (t : String) (ps : List QAPair) : Doc × ℤ :=
  ps.foldl (renderPair cfg t) (titleStep cfg t)

/-- Lines 176-180: once the content pass is done, walk pages 1 to
`getNumberOfPages()` and stamp one footer with that page's number onto
each. -/
def footerPass (t : String) (d : Doc) : Doc :=
  (List.range d.numPages).foldl
    (fun dd i => dd.drawOn (i + 1) (DrawOp.footer t (i + 1))) d

/-- The per-character effect of `replace(/[^a-z0-9]/gi, '_')`: an ASCII
letter or digit is kept, anything else becomes an underscore. -/
def sanitizeChar (c : Char) : Char := if c.isAlphanum then c else '_'

/-- Line 182: `chatTitle.replace(/[^a-z0-9]/gi, '_').toLowerCase()`
followed by the `.pdf` suffix.  Both the regex replacement and
`toLowerCase` act character by character, so they are modelled as maps
over the title's character list. -/
def deriveFilename (t : String) : String :=
  String.mk ((t.data.map sanitizeChar).map Char.toLower) ++ ".pdf"

/-- Lines 110-183, `handlePdfExport`: `none` models the early
`return` on an empty transcript (line 111); otherwise the content pass
runs, the footer pass stamps every page, and `doc.save` receives the
derived filename, modelled by returning it with the finished
document. -/
def handlePdfExport (cfg : Config) (t : String) (ps : List QAPair) :
    Option (String × Doc) :=
  if ps.length = 0 then none
  else some (deriveFilename t, footerPass t (contentPass cfg t ps).1)

/-! ### The export with fallible collaborators

`marked.parse` and `doc.splitTextToSize` are external; if one of them
throws, the exception propagates out of `handlePdfExport` (which has no
try/catch), so execution never reaches `doc.save` on line 182 — the only
statement that produces a file.  The following variant makes that
explicit: the collaborators return `Except`, every step is sequenced in
the same order as the source, and the first component of the result
lists the filenames saved during the run. -/

/-- Collaborators that may throw, plus the page geometry. -/
structure ConfigE where
  wrapE : Nat → String → Except String (List String)
  toPlainTextE : String → Except String String
  pageHeight : ℤ

/-- `renderMarkdown` with fallible collaborators, same steps and order
as lines 129-149. -/
def renderMarkdownE (cfg : ConfigE) (t a : String) (s : Doc × ℤ) :
    Except String (Doc × ℤ) := do
  let plain ← cfg.toPlainTextE a
  let lines ← cfg.wrapE 11 plain
  let h : ℤ := lines.length * 12
  let s1 := pageBreakIfNeeded cfg.pageHeight t h s
  pure (s1.1.drawCurrent (DrawOp.answer lines s1.2), s1.2 + h + 10)

/-- The loop body of lines 159-174 with fallible collaborators. -/
def renderPairE (cfg : ConfigE) (t : String) (s : Doc × ℤ) (qa : QAPair) :
    Except String (Doc × ℤ) := do
  let qLines ← cfg.wrapE 12 qa.q
  let qH : ℤ := qLines.length * 14
  let s1 := pageBreakIfNeeded cfg.pageHeight t qH s
  let s2 : Doc × ℤ :=
    (s1.1.drawCurrent (DrawOp.question qLines s1.2), s1.2 + qH + 15)
  let s3 ← renderMarkdownE cfg t qa.a s2
  pure (s3.1, s3.2 + 25)

/-- The title block of lines 151-157 with a fallible `splitTextToSize`. -/
def titleStepE (cfg : ConfigE) (t : String) : Except String (Doc × ℤ) := do
  let titleLines ← cfg.wrapE 24 t
  pure (Doc.new.drawCurrent (DrawOp.title titleLines 80),
    (80 : ℤ) + titleLines.length * 26 + 40)

/-- The content pass with fallible collaborators. -/
def contentPassE (cfg : ConfigE) (t : String) (ps : List QAPair) :
    Except String (Doc × ℤ) := do
  let s0 ← titleStepE cfg t
  ps.foldlM (renderPairE cfg t) s0

/-- `handlePdfExport` with fallible collaborators: the first component
is the list of files saved (at most the one `doc.save` call of line
182, reached only when every earlier step succeeded), the second the
outcome — `ok none` for the silent early return on an empty transcript,
`ok (some d)` for a completed export, `error e` for a propagated
exception. -/
def handlePdfExportE (cfg : ConfigE) (t : String) (ps : List QAPair) :
    List String × Except String (Option Doc) :=
  if ps.length = 0 then ([], Except.ok none)
  else
    match contentPassE cfg t ps with
    | Except.error e => ([], Except.error e)
    | Except.ok s => ([deriveFilename t], Except.ok (some (footerPass t s.1)))

/-! ### Concrete collaborator instantiations

Used to evaluate the model on closed inputs: `wrap` that puts the whole
string on one line, with a tall page (no break ever fires), with a short
page of height 200 (usable space ends at 150), and a `wrap` that always
reports four lines. -/

/-- Every string wraps to a single line; page height 10000. -/
def oneLineCfg : Config := ⟨fun _ s => [s], id, 10000⟩

/-- Every string wraps to a single line; page height 200, so content
must end at 150 and breaks fire early. -/
def shortPageCfg : Config := ⟨fun _ s => [s], id, 200⟩

/-- Every string wraps to four lines; page height 200. -/
def fourLineCfg : Config := ⟨fun _ _ => ["m", "m", "m", "m"], id, 200⟩

/-- Fallible collaborators where the markdown normalizer always
throws. -/
def failingCfgE : ConfigE :=
  ⟨fun _ s => Except.ok [s], fun _ => Except.error "marked threw", 10000⟩

/-! ### Basic lemmas about `appendAt` -/

theorem appendAt_length (l : List Page) (n : Nat) (op : DrawOp) :
    (appendAt l n op).length = l.length := by
  induction l generalizing n with
  | nil => rfl
  | cons p ps ih =>
    cases n with
    | zero => simp [appendAt]
    | succ m => simp [appendAt, ih]

theorem appendAt_getD_ne (l : List Page) (n m : Nat) (op : DrawOp)
    (h : m ≠ n) : (appendAt l n op).getD m [] = l.getD m [] := by
  induction l generalizing n m with
  | nil => rfl
  | cons p ps ih =>
    cases n with
    | zero =>
      cases m with
      | zero => exact absurd rfl h
      | succ m' => simp [appendAt]
    | succ n' =>
      cases m with
      | zero => simp [appendAt]
      | succ m' =>
        simp only [appendAt, List.getD_cons_succ]
        exact ih n' m' (fun hc => h (by omega))

theorem appendAt_getD_self (l : List Page) (n : Nat) (op : DrawOp)
    (h : n < l.length) : (appendAt l n op).getD n [] = l.getD n [] ++ [op] := by
  induction l generalizing n with
  | nil => simp at h
  | cons p ps ih =>
    cases n with
    | zero => simp [appendAt]
    | succ n' =>
      simp only [appendAt, List.getD_cons_succ]
      exact ih n' (by simpa using h)

theorem appendAt_out_of_range (l : List Page) (n : Nat) (op : DrawOp)
    (h : l.length ≤ n) : appendAt l n op = l := by
  induction l generalizing n with
  | nil => rfl
  | cons p ps ih =>
    cases n with
    | zero => simp at h
    | succ n' => simp [appendAt, ih n' (by simpa using h)]

theorem countP_flatten_appendAt (l : List Page) (n : Nat) (op : DrawOp)
    (p : DrawOp → Bool) :
    (appendAt l n op).flatten.countP p
      = l.flatten.countP p + if n < l.length then (if p op then 1 else 0) else 0 := by
  induction l generalizing n with
  | nil => simp [appendAt]
  | cons q ps ih =>
    cases n with
    | zero =>
      simp only [appendAt, List.flatten_cons, List.countP_append,
        List.length_cons, Nat.succ_pos, if_pos]
      by_cases hp : p op <;> simp [List.countP_cons, hp] <;> omega
    | succ n' =>
      simp only [appendAt, List.flatten_cons, List.countP_append, ih n']
      have : n' + 1 < (q :: ps).length ↔ n' < ps.length := by simp
      by_cases hn : n' < ps.length <;> simp [hn, this] <;> omega

theorem mem_flatten_appendAt_self (l : List Page) (n : Nat) (op : DrawOp)
    (h : n < l.length) : op ∈ (appendAt l n op).flatten := by
  induction l generalizing n with
  | nil => simp at h
  | cons q ps ih =>
    cases n with
    | zero => simp [appendAt]
    | succ n' =>
      simp only [appendAt, List.flatten_cons, List.mem_append]
      exact Or.inr (ih n' (by simpa using h))

theorem mem_flatten_appendAt_of_mem (l : List Page) (n : Nat) (x op : DrawOp)
    (h : x ∈ l.flatten) : x ∈ (appendAt l n op).flatten := by
  induction l generalizing n with
  | nil => simp at h
  | cons q ps ih =>
    cases n with
    | zero =>
      simp only [appendAt, List.flatten_cons, List.mem_append] at h ⊢
      rcases h with h | h
      · exact Or.inl (Or.inl h)
      · exact Or.inr h
    | succ n' =>
      simp only [appendAt, List.flatten_cons, List.mem_append] at h ⊢
      rcases h with h | h
      · exact Or.inl h
      · exact Or.inr (ih n' h)

/-! ### Page counts -/

theorem numPages_drawOn (d : Doc) (i : Nat) (op : DrawOp) :
    (d.drawOn i op).numPages = d.numPages :=
  appendAt_length _ _ _

theorem numPages_drawCurrent (d : Doc) (op : DrawOp) :
    (d.drawCurrent op).numPages = d.numPages :=
  numPages_drawOn _ _ _

theorem numPages_addPage (d : Doc) : d.addPage.numPages = d.numPages + 1 := by
  simp [Doc.addPage, Doc.numPages]

/-! ### Footer counts per page -/

theorem footerCount_drawOn_ne (d : Doc) (i j : Nat) (op : DrawOp)
    (hi : 1 ≤ i) (hj : 1 ≤ j) (hne : j ≠ i) :
    footerCount (d.drawOn i op) j = footerCount d j := by
  unfold footerCount Doc.opsOn Doc.drawOn
  rw [appendAt_getD_ne]
  omega

theorem footerCount_drawOn_footer (d : Doc) (i : Nat) (t : String) (n : Nat)
    (hi : 1 ≤ i) (hle : i ≤ d.numPages) :
    footerCount (d.drawOn i (DrawOp.footer t n)) i = footerCount d i + 1 := by
  unfold footerCount Doc.opsOn Doc.drawOn
  rw [appendAt_getD_self _ _ _ (by unfold Doc.numPages at hle; omega)]
  simp [List.countP_append, List.countP_cons, isFooterOp]

theorem footerCount_drawOn_nonfooter (d : Doc) (i j : Nat) (op : DrawOp)
    (hop : isFooterOp op = false) :
    footerCount (d.drawOn i op) j = footerCount d j := by
  unfold footerCount Doc.opsOn Doc.drawOn
  by_cases h : j - 1 = i - 1
  · by_cases hlt : i - 1 < d.pages.length
    · rw [h, appendAt_getD_self _ _ _ hlt]
      simp [List.countP_append, List.countP_cons, hop]
    · rw [appendAt_out_of_range _ _ _ (by omega)]
  · rw [appendAt_getD_ne _ _ _ _ h]

theorem footerCount_addPage_of_lt (d : Doc) (j : Nat)
    (h : j - 1 < d.numPages) : footerCount d.addPage j = footerCount d j := by
  unfold footerCount Doc.opsOn Doc.addPage
  rw [List.getD_append _ _ _ _ (by unfold Doc.numPages at h; omega)]

theorem footerCount_addPage_of_ge (d : Doc) (j : Nat)
    (h : d.numPages ≤ j - 1) : footerCount d.addPage j = 0 := by
  unfold footerCount Doc.opsOn Doc.addPage
  unfold Doc.numPages at h
  rcases Nat.lt_or_ge (j - 1) (d.pages.length + 1) with hlt | hge
  · have hj : j - 1 = d.pages.length := by omega
    rw [hj]
    rw [List.getD_eq_getElem?_getD, List.getElem?_append_right (by omega)]
    simp
  · rw [List.getD_eq_getElem?_getD, List.getElem?_eq_none (by simp; omega)]
    simp

/-! ### Global draw-operation counts and membership -/

theorem allOps_addPage (d : Doc) : d.addPage.allOps = d.allOps := by
  simp [Doc.addPage, Doc.allOps]

theorem countP_allOps_drawOn (d : Doc) (i : Nat) (op : DrawOp)
    (p : DrawOp → Bool) :
    (d.drawOn i op).allOps.countP p
      = d.allOps.countP p
        + if i - 1 < d.numPages then (if p op then 1 else 0) else 0 :=
  countP_flatten_appendAt _ _ _ _

theorem countP_allOps_drawCurrent (d : Doc) (op : DrawOp)
    (p : DrawOp → Bool) (h : 1 ≤ d.numPages) :
    (d.drawCurrent op).allOps.countP p
      = d.allOps.countP p + (if p op then 1 else 0) := by
  rw [Doc.drawCurrent, countP_allOps_drawOn, if_pos (by omega)]

theorem mem_allOps_drawCurrent_self (d : Doc) (op : DrawOp)
    (h : 1 ≤ d.numPages) : op ∈ (d.drawCurrent op).allOps :=
  mem_flatten_appendAt_self _ _ _ (by simp only [Doc.numPages] at h ⊢; omega)

theorem mem_allOps_drawOn_of_mem (d : Doc) (i : Nat) (x op : DrawOp)
    (h : x ∈ d.allOps) : x ∈ (d.drawOn i op).allOps :=
  mem_flatten_appendAt_of_mem _ _ _ _ h

theorem mem_allOps_addPage_of_mem (d : Doc) (x : DrawOp)
    (h : x ∈ d.allOps) : x ∈ d.addPage.allOps := by
  rw [allOps_addPage]; exact h

/-! ### The footer invariant of the content pass

During the content pass (title block plus the `forEach` over pairs),
every page that has been finished by a page break carries exactly the
one footer stamped by lines 141-145 resp. 164-168, and the current
(last) page carries none yet. -/

/-- Invariant of the document threaded through the content pass: at
least one page exists, every non-last page carries exactly one footer
(stamped when the break that finished it fired), and the last page
carries none. -/
def FooterInv (d : Doc) : Prop :=
  1 ≤ d.numPages
    ∧ (∀ i, 1 ≤ i → i < d.numPages → footerCount d i = 1)
    ∧ footerCount d d.numPages = 0

theorem footerInv_new : FooterInv Doc.new := by
  refine ⟨by simp [Doc.new, Doc.numPages], fun i h1 h2 => ?_, ?_⟩
  · simp [Doc.new, Doc.numPages] at h2
    omega
  · simp [Doc.new, Doc.numPages, footerCount, Doc.opsOn]

theorem footerInv_drawCurrent (d : Doc) (op : DrawOp)
    (hop : isFooterOp op = false) (h : FooterInv d) :
    FooterInv (d.drawCurrent op) := by
  obtain ⟨h1, h2, h3⟩ := h
  refine ⟨by rw [numPages_drawCurrent]; exact h1, fun i hi1 hi2 => ?_, ?_⟩
  · rw [numPages_drawCurrent] at hi2
    rw [Doc.drawCurrent, footerCount_drawOn_nonfooter _ _ _ _ hop]
    exact h2 i hi1 hi2
  · rw [numPages_drawCurrent, Doc.drawCurrent,
      footerCount_drawOn_nonfooter _ _ _ _ hop]
    exact h3

theorem footerInv_pageBreakIfNeeded (H : ℤ) (t : String) (bh : ℤ)
    (s : Doc × ℤ) (h : FooterInv s.1) :
    FooterInv (pageBreakIfNeeded H t bh s).1 := by
  obtain ⟨h1, h2, h3⟩ := h
  unfold pageBreakIfNeeded
  by_cases hc : s.2 + bh > H - 50
  · rw [if_pos hc]
    set d := s.1 with hd
    refine ⟨?_, fun i hi1 hi2 => ?_, ?_⟩
    · simp [numPages_addPage, numPages_drawCurrent]
    · simp only [numPages_addPage, numPages_drawCurrent] at hi2
      rw [footerCount_addPage_of_lt _ _ (by rw [numPages_drawCurrent]; omega)]
      rcases Nat.lt_or_ge i d.numPages with hlt | hge
      · rw [Doc.drawCurrent, footerCount_drawOn_ne _ _ _ _ h1 hi1 (by omega)]
        exact h2 i hi1 hlt
      · have hie : i = d.numPages := by omega
        rw [hie, Doc.drawCurrent, footerCount_drawOn_footer _ _ _ _ h1 le_rfl,
          h3]
    · rw [numPages_addPage, numPages_drawCurrent,
        footerCount_addPage_of_ge _ _ (by rw [numPages_drawCurrent]; omega)]
  · rw [if_neg hc]
    exact ⟨h1, h2, h3⟩

theorem footerInv_renderMarkdown (cfg : Config) (t a : String) (s : Doc × ℤ)
    (h : FooterInv s.1) : FooterInv (renderMarkdown cfg t a s).1 := by
  unfold renderMarkdown
  exact footerInv_drawCurrent _ _ rfl (footerInv_pageBreakIfNeeded _ _ _ _ h)

theorem footerInv_renderPair (cfg : Config) (t : String) (s : Doc × ℤ)
    (qa : QAPair) (h : FooterInv s.1) : FooterInv (renderPair cfg t s qa).1 := by
  unfold renderPair
  exact footerInv_renderMarkdown _ _ _ _
    (footerInv_drawCurrent _ _ rfl (footerInv_pageBreakIfNeeded _ _ _ _ h))

theorem footerInv_titleStep (cfg : Config) (t : String) :
    FooterInv (titleStep cfg t).1 := by
  unfold titleStep
  exact footerInv_drawCurrent _ _ rfl footerInv_new

theorem footerInv_contentPass (cfg : Config) (t : String) (ps : List QAPair) :
    FooterInv (contentPass cfg t ps).1 := by
  unfold contentPass
  induction ps using List.reverseRecOn with
  | nil => exact footerInv_titleStep cfg t
  | append_singleton ps qa ih =>
    rw [List.foldl_append, List.foldl_cons, List.foldl_nil]
    exact footerInv_renderPair _ _ _ _ ih

/-! ### The footer pass -/

theorem numPages_footerFold (l : List Nat) (t : String) (d : Doc) :
    (l.foldl (fun dd j => dd.drawOn (j + 1) (DrawOp.footer t (j + 1))) d).numPages
      = d.numPages := by
  induction l generalizing d with
  | nil => rfl
  | cons j l ih => rw [List.foldl_cons, ih, numPages_drawOn]

theorem numPages_footerPass (t : String) (d : Doc) :
    (footerPass t d).numPages = d.numPages :=
  numPages_footerFold _ _ _

theorem footerCount_footerFold (l : List Nat) (t : String) (d : Doc) (i : Nat)
    (h1 : 1 ≤ i) (h2 : i ≤ d.numPages) :
    footerCount
        (l.foldl (fun dd j => dd.drawOn (j + 1) (DrawOp.footer t (j + 1))) d) i
      = footerCount d i + l.countP (fun j => j + 1 == i) := by
  induction l generalizing d with
  | nil => simp
  | cons j l ih =>
    rw [List.foldl_cons, List.countP_cons,
      ih _ (by rw [numPages_drawOn]; exact h2)]
    by_cases hj : j + 1 = i
    · rw [hj, footerCount_drawOn_footer _ _ _ _ h1 h2]
      simp [hj]
      omega
    · rw [footerCount_drawOn_ne _ _ _ _ (by omega) h1 (by omega)]
      simp [hj]

theorem countP_range_succ_eq (n i : Nat) :
    (List.range n).countP (fun j => j + 1 == i)
      = if 1 ≤ i ∧ i ≤ n then 1 else 0 := by
  induction n with
  | zero =>
    rw [if_neg (by omega)]
    simp
  | succ n ih =>
    rw [List.range_succ, List.countP_append, ih]
    have hs : List.countP (fun j => j + 1 == i) [n] = if n + 1 = i then 1 else 0 := by
      by_cases h3 : n + 1 = i <;> simp [h3]
    rw [hs]
    split_ifs <;> omega

theorem footerCount_footerPass (t : String) (d : Doc) (i : Nat)
    (h1 : 1 ≤ i) (h2 : i ≤ d.numPages) :
    footerCount (footerPass t d) i = footerCount d i + 1 := by
  rw [footerPass, footerCount_footerFold _ _ _ _ h1 h2,
    countP_range_succ_eq, if_pos ⟨h1, h2⟩]

/-! ### Question and answer block counts through the pipeline -/

theorem countP_allOps_drawOn_not (d : Doc) (i : Nat) (op : DrawOp)
    (p : DrawOp → Bool) (hop : p op = false) :
    (d.drawOn i op).allOps.countP p = d.allOps.countP p := by
  rw [countP_allOps_drawOn]
  split_ifs <;> simp_all

theorem numPages_pageBreakIfNeeded_pos (H : ℤ) (t : String) (bh : ℤ)
    (s : Doc × ℤ) (h : 1 ≤ s.1.numPages) :
    1 ≤ (pageBreakIfNeeded H t bh s).1.numPages := by
  unfold pageBreakIfNeeded
  split_ifs
  · simp only [numPages_addPage, numPages_drawCurrent]
    omega
  · exact h

theorem numPages_pageBreakIfNeeded_ge (H : ℤ) (t : String) (bh : ℤ)
    (s : Doc × ℤ) :
    s.1.numPages ≤ (pageBreakIfNeeded H t bh s).1.numPages := by
  unfold pageBreakIfNeeded
  split_ifs
  · simp only [numPages_addPage, numPages_drawCurrent]
    omega
  · exact le_rfl

theorem countP_allOps_pageBreakIfNeeded (H : ℤ) (t : String) (bh : ℤ)
    (s : Doc × ℤ) (p : DrawOp → Bool) (hp : ∀ u n, p (DrawOp.footer u n) = false) :
    (pageBreakIfNeeded H t bh s).1.allOps.countP p = s.1.allOps.countP p := by
  unfold pageBreakIfNeeded
  split_ifs
  · rw [allOps_addPage, Doc.drawCurrent, countP_allOps_drawOn_not _ _ _ _ (hp _ _)]
  · rfl

theorem answerOpCount_renderMarkdown (cfg : Config) (t a : String)
    (s : Doc × ℤ) (h : 1 ≤ s.1.numPages) :
    answerOpCount (renderMarkdown cfg t a s).1 = answerOpCount s.1 + 1 := by
  unfold renderMarkdown answerOpCount
  rw [countP_allOps_drawCurrent _ _ _
      (numPages_pageBreakIfNeeded_pos _ _ _ _ h),
    countP_allOps_pageBreakIfNeeded _ _ _ _ _ (fun _ _ => rfl)]
  simp [isAnswerOp]

theorem questionOpCount_renderMarkdown (cfg : Config) (t a : String)
    (s : Doc × ℤ) :
    questionOpCount (renderMarkdown cfg t a s).1 = questionOpCount s.1 := by
  unfold renderMarkdown questionOpCount Doc.drawCurrent
  rw [countP_allOps_drawOn_not _ _ _ _ rfl,
    countP_allOps_pageBreakIfNeeded _ _ _ _ _ (fun _ _ => rfl)]

theorem numPages_renderMarkdown_pos (cfg : Config) (t a : String)
    (s : Doc × ℤ) (h : 1 ≤ s.1.numPages) :
    1 ≤ (renderMarkdown cfg t a s).1.numPages := by
  unfold renderMarkdown
  rw [numPages_drawCurrent]
  exact numPages_pageBreakIfNeeded_pos _ _ _ _ h

theorem answerOpCount_renderPair (cfg : Config) (t : String) (s : Doc × ℤ)
    (qa : QAPair) (h : 1 ≤ s.1.numPages) :
    answerOpCount (renderPair cfg t s qa).1 = answerOpCount s.1 + 1 := by
  unfold renderPair
  rw [answerOpCount_renderMarkdown]
  · unfold answerOpCount Doc.drawCurrent
    rw [countP_allOps_drawOn_not _ _ _ _ rfl,
      countP_allOps_pageBreakIfNeeded _ _ _ _ _ (fun _ _ => rfl)]
  · rw [numPages_drawCurrent]
    exact numPages_pageBreakIfNeeded_pos _ _ _ _ h

theorem questionOpCount_renderPair (cfg : Config) (t : String) (s : Doc × ℤ)
    (qa : QAPair) (h : 1 ≤ s.1.numPages) :
    questionOpCount (renderPair cfg t s qa).1 = questionOpCount s.1 + 1 := by
  unfold renderPair
  rw [questionOpCount_renderMarkdown]
  unfold questionOpCount
  rw [countP_allOps_drawCurrent _ _ _ (numPages_pageBreakIfNeeded_pos _ _ _ _ h),
    countP_allOps_pageBreakIfNeeded _ _ _ _ _ (fun _ _ => rfl)]
  simp [isQuestionOp]

theorem numPages_renderPair_pos (cfg : Config) (t : String) (s : Doc × ℤ)
    (qa : QAPair) (h : 1 ≤ s.1.numPages) :
    1 ≤ (renderPair cfg t s qa).1.numPages := by
  unfold renderPair
  apply numPages_renderMarkdown_pos
  rw [numPages_drawCurrent]
  exact numPages_pageBreakIfNeeded_pos _ _ _ _ h

theorem numPages_titleStep (cfg : Config) (t : String) :
    (titleStep cfg t).1.numPages = 1 := rfl

theorem answerOpCount_titleStep (cfg : Config) (t : String) :
    answerOpCount (titleStep cfg t).1 = 0 := by
  unfold titleStep answerOpCount Doc.drawCurrent
  rw [countP_allOps_drawOn_not _ _ _ _ rfl]
  rfl

theorem questionOpCount_titleStep (cfg : Config) (t : String) :
    questionOpCount (titleStep cfg t).1 = 0 := by
  unfold titleStep questionOpCount Doc.drawCurrent
  rw [countP_allOps_drawOn_not _ _ _ _ rfl]
  rfl

theorem contentPass_counts (cfg : Config) (t : String) (ps : List QAPair) :
    1 ≤ (contentPass cfg t ps).1.numPages
      ∧ answerOpCount (contentPass cfg t ps).1 = ps.length
      ∧ questionOpCount (contentPass cfg t ps).1 = ps.length := by
  unfold contentPass
  induction ps using List.reverseRecOn with
  | nil =>
    refine ⟨?_, ?_, ?_⟩
    · rw [List.foldl_nil, numPages_titleStep]
    · rw [List.foldl_nil, answerOpCount_titleStep]; rfl
    · rw [List.foldl_nil, questionOpCount_titleStep]; rfl
  | append_singleton ps qa ih =>
    obtain ⟨h1, h2, h3⟩ := ih
    rw [List.foldl_append, List.foldl_cons, List.foldl_nil]
    refine ⟨numPages_renderPair_pos _ _ _ _ h1, ?_, ?_⟩
    · rw [answerOpCount_renderPair _ _ _ _ h1, h2, List.length_append,
        List.length_singleton]
    · rw [questionOpCount_renderPair _ _ _ _ h1, h3, List.length_append,
        List.length_singleton]

theorem countP_allOps_footerPass (t : String) (d : Doc) (p : DrawOp → Bool)
    (hp : ∀ u n, p (DrawOp.footer u n) = false) :
    (footerPass t d).allOps.countP p = d.allOps.countP p := by
  unfold footerPass
  generalize List.range d.numPages = l
  induction l generalizing d with
  | nil => rfl
  | cons j l ih =>
    rw [List.foldl_cons, ih, countP_allOps_drawOn_not _ _ _ _ (hp _ _)]

/-! ### Membership of draw operations survives later drawing -/

theorem mem_allOps_pageBreakIfNeeded_of_mem (H : ℤ) (t : String) (bh : ℤ)
    (s : Doc × ℤ) (x : DrawOp) (h : x ∈ s.1.allOps) :
    x ∈ (pageBreakIfNeeded H t bh s).1.allOps := by
  unfold pageBreakIfNeeded
  split_ifs
  · exact mem_allOps_addPage_of_mem _ _ (mem_allOps_drawOn_of_mem _ _ _ _ h)
  · exact h

theorem mem_allOps_renderMarkdown_of_mem (cfg : Config) (t a : String)
    (s : Doc × ℤ) (x : DrawOp) (h : x ∈ s.1.allOps) :
    x ∈ (renderMarkdown cfg t a s).1.allOps := by
  unfold renderMarkdown Doc.drawCurrent
  exact mem_allOps_drawOn_of_mem _ _ _ _
    (mem_allOps_pageBreakIfNeeded_of_mem _ _ _ _ _ h)

/-! ### Cursor bounds and block membership at the break site -/

theorem pageBreak_cursor_bounds (H : ℤ) (t : String) (bh : ℤ) (d : Doc)
    (y : ℤ) (hh : bh ≤ H - 100) (hy : 50 ≤ y) :
    50 ≤ (pageBreakIfNeeded H t bh (d, y)).2
      ∧ (pageBreakIfNeeded H t bh (d, y)).2 + bh ≤ H - 50 := by
  unfold pageBreakIfNeeded
  dsimp only
  split_ifs with hc
  · exact ⟨le_rfl, by omega⟩
  · exact ⟨hy, by omega⟩

theorem answer_block_mem_renderMarkdown (cfg : Config) (t a : String)
    (d : Doc) (y : ℤ) (hd : 1 ≤ d.numPages) :
    DrawOp.answer (cfg.wrap 11 (cfg.toPlainText a))
        (pageBreakIfNeeded cfg.pageHeight t
          (((cfg.wrap 11 (cfg.toPlainText a)).length : ℤ) * 12) (d, y)).2
      ∈ (renderMarkdown cfg t a (d, y)).1.allOps := by
  unfold renderMarkdown
  exact mem_allOps_drawCurrent_self _ _
    (numPages_pageBreakIfNeeded_pos _ _ _ _ hd)

theorem question_block_mem_renderPair (cfg : Config) (t : String) (d : Doc)
    (y : ℤ) (qa : QAPair) (hd : 1 ≤ d.numPages) :
    DrawOp.question (cfg.wrap 12 qa.q)
        (pageBreakIfNeeded cfg.pageHeight t
          (((cfg.wrap 12 qa.q).length : ℤ) * 14) (d, y)).2
      ∈ (renderPair cfg t (d, y) qa).1.allOps := by
  unfold renderPair
  apply mem_allOps_renderMarkdown_of_mem
  exact mem_allOps_drawCurrent_self _ _
    (numPages_pageBreakIfNeeded_pos _ _ _ _ hd)

theorem answerOpCount_footerPass (t : String) (d : Doc) :
    answerOpCount (footerPass t d) = answerOpCount d :=
  countP_allOps_footerPass _ _ _ (fun _ _ => rfl)

theorem questionOpCount_footerPass (t : String) (d : Doc) :
    questionOpCount (footerPass t d) = questionOpCount d :=
  countP_allOps_footerPass _ _ _ (fun _ _ => rfl)

/-! ## The claims -/

/-- C1 counterexample: on a transcript that forces page breaks (page
height 200, two pairs) page 1 of the finished three-page document
carries TWO footer stamps, not exactly one: the break sites (lines
141-145, 164-168) stamp a footer speculatively during the content pass,
and the final loop (lines 176-180) stamps every page again. -/
theorem footer_double_stamp_on_break :
    ((handlePdfExport shortPageCfg "t" [⟨"q1", "a1"⟩, ⟨"q2", "a2"⟩]).map
        fun r => footerCount r.2 1) = some 2
      ∧ ((handlePdfExport shortPageCfg "t" [⟨"q1", "a1"⟩, ⟨"q2", "a2"⟩]).map
          fun r => r.2.numPages) = some 3 := by
  exact ⟨by decide, by decide⟩

/-- C1 (amended): for every completed export, the final footer pass
(run only after all content-driven page breaks are known) stamps
exactly one footer onto every page `1..pageCount`; in addition each
page that was finalized by a content-driven break already received one
speculative footer during the content pass, so every page except the
last carries exactly two footer stamps and the last page exactly
one. -/
theorem footers_two_pass_exact_count (cfg : Config) (t : String)
    (ps : List QAPair) (f : String) (d : Doc)
    (hex : handlePdfExport cfg t ps = some (f, d))
    (i : Nat) (h1 : 1 ≤ i) (h2 : i ≤ d.numPages) :
    footerCount d i = if i < d.numPages then 2 else 1 := by
  rw [handlePdfExport] at hex
  split_ifs at hex with hps
  simp only [Option.some.injEq, Prod.mk.injEq] at hex
  obtain ⟨hf, hd⟩ := hex
  subst hd
  obtain ⟨hc1, hc2, hc3⟩ := footerInv_contentPass cfg t ps
  have hnp : (footerPass t (contentPass cfg t ps).1).numPages
      = (contentPass cfg t ps).1.numPages := numPages_footerPass _ _
  rw [hnp] at h2
  rw [footerCount_footerPass _ _ _ h1 h2]
  rcases Nat.lt_or_ge i (contentPass cfg t ps).1.numPages with hlt | hge
  · rw [hc2 i h1 hlt, if_pos (by omega)]
  · have hie : i = (contentPass cfg t ps).1.numPages := by omega
    rw [hie, hc3, if_neg (by omega)]

/-- C1 witness: the amended count evaluated on a one-page export: the
single (last) page carries exactly one footer. -/
theorem footers_two_pass_exact_count_witness :
    footerCount (⟨[[DrawOp.title ["t"] 80, DrawOp.question ["q"] 146,
          DrawOp.answer ["a"] 175, DrawOp.footer "t" 1]]⟩ : Doc) 1
      = if 1 < (⟨[[DrawOp.title ["t"] 80, DrawOp.question ["q"] 146,
            DrawOp.answer ["a"] 175, DrawOp.footer "t" 1]]⟩ : Doc).numPages
        then 2 else 1 :=
  footers_two_pass_exact_count oneLineCfg "t" [⟨"q", "a"⟩] "t.pdf" _
    (by decide) 1 (by decide) (by decide)



/-- C2: for every pending block, a page break occurs if and only if
`cursor + blockHeight` strictly exceeds `pageHeight - bottomMargin`
(both break sites, lines 141-145 and 164-168, run this test); a block
exactly filling the remaining space triggers no break, one exceeding it
by a single unit does; on a break the cursor is reset to the top margin
50 and the page count increments by one, and without a break the state
is untouched. -/
theorem page_break_iff_strict_overflow (H : ℤ) (t : String) (bh : ℤ)
    (s : Doc × ℤ) :
    ((pageBreakIfNeeded H t bh s).1.numPages = s.1.numPages + 1
        ∧ (pageBreakIfNeeded H t bh s).2 = 50
      ↔ s.2 + bh > H - 50)
    ∧ (¬ s.2 + bh > H - 50 → pageBreakIfNeeded H t bh s = s) := by
  refine ⟨⟨fun hb => ?_, fun hc => ?_⟩, fun hc => ?_⟩
  · by_contra hc
    rw [pageBreakIfNeeded, if_neg hc] at hb
    omega
  · rw [pageBreakIfNeeded, if_pos hc]
    exact ⟨by simp [numPages_addPage, numPages_drawCurrent], rfl⟩
  · rw [pageBreakIfNeeded, if_neg hc]

/-- C2 witness: with page height 200 the usable space ends at 150; from
cursor 100 a block of height exactly 50 triggers no break, and a block
of height 51 triggers one, resetting the cursor to 50 and adding a
page. -/
theorem page_break_iff_strict_overflow_witness :
    pageBreakIfNeeded 200 "t" 50 (Doc.new, 100) = (Doc.new, 100)
      ∧ (pageBreakIfNeeded 200 "t" 51 (Doc.new, 100)).1.numPages
          = Doc.new.numPages + 1
      ∧ (pageBreakIfNeeded 200 "t" 51 (Doc.new, 100)).2 = 50 :=
  ⟨(page_break_iff_strict_overflow 200 "t" 50 (Doc.new, 100)).2 (by decide),
   ((page_break_iff_strict_overflow 200 "t" 51 (Doc.new, 100)).1.mpr
     (by decide)).1,
   ((page_break_iff_strict_overflow 200 "t" 51 (Doc.new, 100)).1.mpr
     (by decide)).2⟩

/-- C4 counterexample: on an empty transcript the export returns early
with no error of any kind — `none` (no save, normal return) in the pure
model, and `([], ok none)` even when the collaborators could throw — so
it does not fail with an `EmptyTranscriptError` (no such error exists
in the code; line 111 is a silent `return`). -/
theorem empty_export_no_error_concrete :
    handlePdfExport oneLineCfg "t" [] = none
      ∧ handlePdfExportE failingCfgE "t" [] = ([], Except.ok none) :=
  ⟨rfl, rfl⟩

/-- C4 (amended): when the pair sequence is empty the export returns
early without producing a file and without raising any error: the guard
of line 111 is a silent early return, not an `EmptyTranscriptError`. -/
theorem empty_export_silent_skip (cfg : Config) (cfgE : ConfigE) (t : String) :
    handlePdfExport cfg t [] = none
      ∧ handlePdfExportE cfgE t [] = ([], Except.ok none) :=
  ⟨rfl, rfl⟩

/-- C5 counterexample: the title `"Q1 (5 marks): Explain
Photosynthesis..."` does NOT yield the filename the claim states —
per-character replacement turns the two-character `" ("` into two
underscores and the three-character `"): "` into three, not one and two
as claimed. -/
theorem filename_spec_example_wrong :
    deriveFilename "Q1 (5 marks): Explain Photosynthesis..."
      ≠ "q1_5_marks__explain_photosynthesis___.pdf" := by
  decide

/-- C5 (amended): the exported filename is obtained from the title by
replacing every character outside `[a-z0-9]` (case-insensitively) with
an underscore, lower-casing, and appending `.pdf`; the derivation is
the deterministic function `deriveFilename`, and the spec's example
title actually yields `q1__5_marks___explain_photosynthesis___.pdf`
(two underscores for `" ("`, three for `"): "`). -/
theorem filename_sanitize_lowercase (cfg : Config) (t : String)
    (ps : List QAPair) (hps : ps ≠ []) :
    (handlePdfExport cfg t ps).map Prod.fst = some (deriveFilename t)
      ∧ deriveFilename "Q1 (5 marks): Explain Photosynthesis..."
          = "q1__5_marks___explain_photosynthesis___.pdf" := by
  constructor
  · rw [handlePdfExport, if_neg (by simpa using hps)]
    rfl
  · decide

/-- C5 witness: the amended statement evaluated on a one-pair
transcript with the spec's example title. -/
theorem filename_sanitize_lowercase_witness :
    (handlePdfExport oneLineCfg "Q1 (5 marks): Explain Photosynthesis..."
        [⟨"q", "a"⟩]).map Prod.fst
      = some (deriveFilename "Q1 (5 marks): Explain Photosynthesis...") :=
  (filename_sanitize_lowercase oneLineCfg _ _ (by decide)).1

/-- C8: the export is a deterministic function of the title, the pairs
and the collaborators: two runs on the same input produce the same page
count, the same draw operations (hence identical line placements), and
the same saved file. -/
theorem export_layout_deterministic (cfg : Config) (t : String)
    (ps : List QAPair) (r1 r2 : Option (String × Doc))
    (h1 : r1 = handlePdfExport cfg t ps) (h2 : r2 = handlePdfExport cfg t ps) :
    (r1.map fun r => r.2.numPages) = (r2.map fun r => r.2.numPages)
      ∧ (r1.map fun r => r.2.allOps) = (r2.map fun r => r.2.allOps)
      ∧ r1 = r2 := by
  subst h1 h2
  exact ⟨rfl, rfl, rfl⟩

/-- C8 witness: two runs on a concrete one-pair transcript agree. -/
theorem export_layout_deterministic_witness :
    ((handlePdfExport oneLineCfg "t" [⟨"q", "a"⟩]).map fun r => r.2.numPages)
        = ((handlePdfExport oneLineCfg "t" [⟨"q", "a"⟩]).map fun r => r.2.numPages)
      ∧ ((handlePdfExport oneLineCfg "t" [⟨"q", "a"⟩]).map fun r => r.2.allOps)
          = ((handlePdfExport oneLineCfg "t" [⟨"q", "a"⟩]).map fun r => r.2.allOps)
      ∧ handlePdfExport oneLineCfg "t" [⟨"q", "a"⟩]
          = handlePdfExport oneLineCfg "t" [⟨"q", "a"⟩] :=
  export_layout_deterministic oneLineCfg "t" [⟨"q", "a"⟩] _ _ rfl rfl

/-- C3: a block whose wrapped height is at most the usable page height
(`pageHeight` minus both 50-point margins) is never split across two
pages: all its wrapped lines are drawn as one operation on a single
page, at a position `yd` with the whole block inside the content area
(`50 ≤ yd` and `yd + height ≤ pageHeight - 50`) — it either fits at the
current cursor or moves entirely to the fresh page.  This holds for
answer blocks (`renderMarkdown`) and question blocks (`renderPair`). -/
theorem atomic_block_single_page (cfg : Config) (t : String) (d : Doc)
    (y : ℤ) (qa : QAPair) (hd : 1 ≤ d.numPages) (hy : 50 ≤ y) :
    (∀ lines bh yd,
      lines = cfg.wrap 11 (cfg.toPlainText qa.a) →
      bh = (lines.length : ℤ) * 12 →
      yd = (pageBreakIfNeeded cfg.pageHeight t bh (d, y)).2 →
      bh ≤ cfg.pageHeight - 100 →
      DrawOp.answer lines yd ∈ (renderMarkdown cfg t qa.a (d, y)).1.allOps
        ∧ 50 ≤ yd ∧ yd + bh ≤ cfg.pageHeight - 50)
    ∧ (∀ qLines qh yd,
      qLines = cfg.wrap 12 qa.q →
      qh = (qLines.length : ℤ) * 14 →
      yd = (pageBreakIfNeeded cfg.pageHeight t qh (d, y)).2 →
      qh ≤ cfg.pageHeight - 100 →
      DrawOp.question qLines yd ∈ (renderPair cfg t (d, y) qa).1.allOps
        ∧ 50 ≤ yd ∧ yd + qh ≤ cfg.pageHeight - 50) := by
  constructor
  · rintro lines bh yd rfl rfl rfl hbh
    obtain ⟨hb1, hb2⟩ := pageBreak_cursor_bounds cfg.pageHeight t _ d y hbh hy
    exact ⟨answer_block_mem_renderMarkdown cfg t qa.a d y hd, hb1, hb2⟩
  · rintro qLines qh yd rfl rfl rfl hqh
    obtain ⟨hb1, hb2⟩ := pageBreak_cursor_bounds cfg.pageHeight t _ d y hqh hy
    exact ⟨question_block_mem_renderPair cfg t d y qa hd, hb1, hb2⟩

/-- C3 witness: on a tall page a one-line answer block of height 12 is
drawn whole at cursor 50, well inside the content area. -/
theorem atomic_block_single_page_witness :
    DrawOp.answer ["a"] 50
        ∈ (renderMarkdown oneLineCfg "t" "a" (Doc.new, 50)).1.allOps
      ∧ (50 : ℤ) ≤ 50 ∧ (50 : ℤ) + 12 ≤ oneLineCfg.pageHeight - 50 :=
  (atomic_block_single_page oneLineCfg "t" Doc.new 50 ⟨"q", "a"⟩ (by decide)
      (by decide)).1 ["a"] 12 50 rfl (by decide) (by decide) (by decide)

/-- C6 counterexample: after the advance for an answer block (4 wrapped
lines, height 48, drawn at cursor 100 on a page whose content area ends
at 150) the cursor is 158, strictly beyond `pageHeight - bottomMargin`
— and `renderMarkdown` returns normally: the code contains no cursor
check and no `InternalLayoutError`, the overflow is silently carried
into the next block's break test. -/
theorem cursor_exceeds_bottom_after_advance :
    (renderMarkdown fourLineCfg "t" "x" (Doc.new, 100)).2
      > fourLineCfg.pageHeight - 50 := by
  decide

/-- C6 (amended): immediately after an advance the cursor is at least
the top margin 50 (when it started there), but it may exceed
`pageHeight - bottomMargin` by the inter-block spacing plus any
overhang; the code never checks the upper bound and defines no
`InternalLayoutError` — an out-of-range cursor is silently corrected
only by the next block's page-break test. -/
theorem cursor_top_margin_lower_bound (cfg : Config) (t a : String)
    (d : Doc) (y : ℤ) (hy : 50 ≤ y) :
    50 ≤ (renderMarkdown cfg t a (d, y)).2 := by
  unfold renderMarkdown pageBreakIfNeeded
  dsimp only
  split_ifs with hc
  · dsimp only
    omega
  · omega

/-- C6 witness: the lower bound evaluated at cursor 50 on a tall
page. -/
theorem cursor_top_margin_lower_bound_witness :
    50 ≤ (renderMarkdown oneLineCfg "t" "a" (Doc.new, 50)).2 :=
  cursor_top_margin_lower_bound oneLineCfg "t" "a" Doc.new 50 (by decide)

/-- C7: if any step of the export fails (a collaborator throws, for any
title and any pair sequence), the exception propagates — there is no
try/catch — and `doc.save` is never reached, so no file is produced:
the saved-files component of the outcome is empty whenever the outcome
is an error. -/
theorem error_aborts_without_file (cfg : ConfigE) (t : String)
    (ps : List QAPair) (e : String)
    (h : (handlePdfExportE cfg t ps).2 = Except.error e) :
    (handlePdfExportE cfg t ps).1 = [] := by
  unfold handlePdfExportE at h ⊢
  split_ifs at h ⊢ with hps
  cases hc : contentPassE cfg t ps with
  | error e2 => rfl
  | ok s =>
    rw [hc] at h
    exact absurd h (by simp)

/-- C7 witness: with a markdown normalizer that throws, the export of a
one-pair transcript errors out and saves nothing. -/
theorem error_aborts_without_file_witness :
    (handlePdfExportE failingCfgE "t" [⟨"q", "a"⟩]).1 = [] :=
  error_aborts_without_file failingCfgE "t" [⟨"q", "a"⟩] "marked threw"
    (by rfl)

/-- C9: a pair whose answer is the empty string is exported like any
other pair — the export succeeds on every non-empty transcript and the
finished document carries exactly one answer block and one question
block per pair, so empty-answer pairs are exported (as whatever block
the normalizer/wrapper produce for the empty string) and never make the
export fail. -/
theorem empty_answer_never_fails (cfg : Config) (t : String)
    (ps : List QAPair) (hps : ps ≠ []) :
    ((handlePdfExport cfg t ps).map fun r => answerOpCount r.2)
        = some ps.length
      ∧ ((handlePdfExport cfg t ps).map fun r => questionOpCount r.2)
          = some ps.length := by
  obtain ⟨hpos, ha, hq⟩ := contentPass_counts cfg t ps
  rw [handlePdfExport, if_neg (by simpa using hps)]
  refine ⟨?_, ?_⟩
  · show some (answerOpCount (footerPass t (contentPass cfg t ps).1))
      = some ps.length
    rw [answerOpCount_footerPass, ha]
  · show some (questionOpCount (footerPass t (contentPass cfg t ps).1))
      = some ps.length
    rw [questionOpCount_footerPass, hq]

/-- C9 witness: a transcript whose only pair has an empty answer
exports successfully with one question and one answer block. -/
theorem empty_answer_never_fails_witness :
    ((handlePdfExport oneLineCfg "t" [⟨"q", ""⟩]).map
        fun r => answerOpCount r.2) = some 1
      ∧ ((handlePdfExport oneLineCfg "t" [⟨"q", ""⟩]).map
          fun r => questionOpCount r.2) = some 1 :=
  empty_answer_never_fails oneLineCfg "t" [⟨"q", ""⟩] (by decide)

/-- C10: the title heading is always drawn on page 1 at the fixed
vertical offset 80 with no page-break check and no footer stamp: for a
title of any wrapped height (`cfg.wrap 24 t` is arbitrary) the document
still has exactly one page, page 1 carries no footer, and the cursor
simply advances past the title, so an arbitrarily tall title overflows
page 1 rather than paginating. -/
theorem title_fixed_page_one_no_break (cfg : Config) (t : String) :
    (titleStep cfg t).1.pages = [[DrawOp.title (cfg.wrap 24 t) 80]]
      ∧ (titleStep cfg t).1.numPages = 1
      ∧ footerCount (titleStep cfg t).1 1 = 0
      ∧ (titleStep cfg t).2 = 80 + (cfg.wrap 24 t).length * 26 + 40 :=
  ⟨rfl, rfl, rfl, rfl⟩

end ExamPrep

